import Mathlib

/-!
Verification development for the HR assistant conversational agent
(`agent.py`, `timesheet_operations.py`, `transport_operations.py`,
`training_operations.py`).

The agent handlers are shallowly embedded as pure Lean functions.
External collaborators (the semantic classifier, the semantic slot parser,
the MCP action executor, the RAG answer provider) are modelled as oracle
inputs gathered in an `Env` record: each handler consumes the data those
collaborators would have returned and records the calls it makes.

JSON-decoded Python values are modelled by the inductive `PyVal`
(JSON numbers are modelled as integers; no claim here depends on floats).
Python dictionary access, truthiness, `or`-defaulting, slicing and
stringification are given explicit models; operations that can raise in
Python (`.get` on a non-dict, `[...]` indexing, `.strip()` on a non-str,
slicing a non-sequence) return `Except PyErr`.
-/

/-- A decoded Python/JSON value (`json.loads` output and MCP envelopes). -/
inductive PyVal where
  | vNone : PyVal
  | vBool : Bool → PyVal
  | vInt : Int → PyVal
  | vStr : String → PyVal
  | vList : List PyVal → PyVal
  | vDict : List (String × PyVal) → PyVal
deriving Repr

/-- Python exception kinds raised by the modelled operations. -/
inductive PyErr where
  | attributeError : PyErr
  | keyError : PyErr
  | typeError : PyErr
deriving Repr, DecidableEq

/-- Python truthiness (`bool(v)`) of a decoded value. -/
def pyTruthy : PyVal → Bool
  | .vNone => false
  | .vBool b => b
  | .vInt n => n != 0
  | .vStr s => s != ""
  | .vList xs => !xs.isEmpty
  | .vDict kvs => !kvs.isEmpty

/-- Python `a or b`: `a` when truthy, else `b`. -/
def pyOr (a b : PyVal) : PyVal := if pyTruthy a then a else b

/-- Model of `d.get(k)` on a value known to be a dict: the stored value, or `None`. -/
def dictGet (kvs : List (String × PyVal)) (k : String) : PyVal :=
  (kvs.lookup k).getD .vNone

/-- Model of `d.get(k, default)` on a value known to be a dict. -/
def dictGetD (kvs : List (String × PyVal)) (k : String) (d : PyVal) : PyVal :=
  (kvs.lookup k).getD d

/-- Model of `d[k]` on a value known to be a dict: `KeyError` when absent. -/
def dictIndex (kvs : List (String × PyVal)) (k : String) : Except PyErr PyVal :=
  match kvs.lookup k with
  | some v => .ok v
  | none => .error .keyError

/-- Model of `v.get(k)`: only dicts have `.get`; anything else raises `AttributeError`. -/
def pyGet (v : PyVal) (k : String) : Except PyErr PyVal :=
  match v with
  | .vDict kvs => .ok (dictGet kvs k)
  | _ => .error .attributeError

/-- Model of `v[k]` with a string key: dicts may raise `KeyError`; other values raise
`TypeError`. -/
def pyIndexStr (v : PyVal) (k : String) : Except PyErr PyVal :=
  match v with
  | .vDict kvs => dictIndex kvs k
  | _ => .error .typeError

/-- Model of `v.items()`: only dicts have `.items`. -/
def pyItems : PyVal → Except PyErr (List (String × PyVal))
  | .vDict kvs => .ok kvs
  | _ => .error .attributeError

/-- Substring test over character lists (`p` occurs somewhere in `t`). -/
def listContainsSub (t p : List Char) : Bool :=
  if p.isPrefixOf t then true
  else
    match t with
    | [] => false
    | _ :: t2 => listContainsSub t2 p

/-- Python `pat in text` for strings. -/
def strContains (text pat : String) : Bool :=
  listContainsSub text.toList pat.toList

/-- ASCII `\s` / the whitespace set stripped by `str.strip()`. -/
def isPyWs (c : Char) : Bool :=
  c == ' ' || c == '\t' || c == '\n' || c == '\r' || c == '\x0b' || c == '\x0c'

/-- Model of `str.lower()` (per-character lowering, kernel-reducible). -/
def pyLowerStr (s : String) : String := String.mk (s.toList.map Char.toLower)

/-- Model of `str.upper()`. -/
def pyUpperStr (s : String) : String := String.mk (s.toList.map Char.toUpper)

/-- Model of `str.strip()`: remove leading and trailing whitespace. -/
def pyStripStr (s : String) : String :=
  String.mk (((s.toList.dropWhile isPyWs).reverse.dropWhile isPyWs).reverse)

/-- Model of `v.strip()`: only strings have `.strip`. -/
def pyStrip : PyVal → Except PyErr PyVal
  | .vStr s => .ok (.vStr (pyStripStr s))
  | _ => .error .attributeError

/-- Model of `v or None` (used for `(... or "").strip() or None`). -/
def pyOrNone (v : PyVal) : PyVal := if pyTruthy v then v else .vNone

/-- Model of `v[:5]`: lists and strings slice; other values raise `TypeError`
(a string slices to its characters, each a one-character string). -/
def pySlice5 : PyVal → Except PyErr (List PyVal)
  | .vList xs => .ok (xs.take 5)
  | .vStr s => .ok ((s.toList.take 5).map (fun c => .vStr (String.singleton c)))
  | _ => .error .typeError

mutual
/-- Python `repr` of a decoded value (element form used inside lists/dicts). -/
def pyRepr : PyVal → String
  | .vNone => "None"
  | .vBool b => if b then "True" else "False"
  | .vInt n => toString n
  | .vStr s => "\x27" ++ s ++ "\x27"
  | .vList xs => "[" ++ String.intercalate ", " (pyReprList xs) ++ "]"
  | .vDict kvs => "\x7b" ++ String.intercalate ", " (pyReprDict kvs) ++ "\x7d"

def pyReprList : List PyVal → List String
  | [] => []
  | x :: xs => pyRepr x :: pyReprList xs

def pyReprDict : List (String × PyVal) → List String
  | [] => []
  | kv :: kvs => ("\x27" ++ kv.1 ++ "\x27: " ++ pyRepr kv.2) :: pyReprDict kvs
end

/-- Python `str(v)` as used by f-string interpolation. -/
def pyStr : PyVal → String
  | .vNone => "None"
  | .vBool b => if b then "True" else "False"
  | .vInt n => toString n
  | .vStr s => s
  | .vList xs => pyRepr (.vList xs)
  | .vDict kvs => pyRepr (.vDict kvs)

/-! ### Dates (`datetime.date`) -/

/-- A calendar date (proleptic Gregorian), as `datetime.date`. -/
structure Date where
  year : Nat
  month : Nat
  day : Nat
deriving Repr, DecidableEq

/-- Gregorian leap-year test. -/
def isLeapYear (y : Nat) : Bool :=
  y % 4 == 0 && (y % 100 != 0 || y % 400 == 0)

/-- Number of days in a month. -/
def daysInMonth (y m : Nat) : Nat :=
  if m == 2 then (if isLeapYear y then 29 else 28)
  else if m == 4 || m == 6 || m == 9 || m == 11 then 30
  else 31

/-- Days in the months strictly before month `m` of year `y`. -/
def daysBeforeMonth (y m : Nat) : Nat :=
  ((List.range (m - 1)).map (fun i => daysInMonth y (i + 1))).sum

/-- Model of `date.toordinal()`: day number with 0001-01-01 as day 1. -/
def toOrdinal (d : Date) : Int :=
  let y := d.year - 1
  (365 * y + y / 4 - y / 100 + y / 400 + daysBeforeMonth d.year d.month + d.day : Nat)

/-- Model of `date.isoformat()`. -/
def padNum (width n : Nat) : String :=
  let s := toString n
  String.mk (List.replicate (width - s.length) '0') ++ s

def Date.isoformat (d : Date) : String :=
  padNum 4 d.year ++ "-" ++ padNum 2 d.month ++ "-" ++ padNum 2 d.day

/-- Digit value of a character, if it is a decimal digit. -/
def digitVal (c : Char) : Option Nat :=
  if c.isDigit then some (c.toNat - 48) else none

/-- Model of `date.fromisoformat` on the canonical `YYYY-MM-DD` form: four digits,
dash, two digits, dash, two digits, denoting a valid calendar date with
year at least 1.  Any other string fails (raises, caught by the caller). -/
def dateFromIso (s : String) : Option Date :=
  match s.toList with
  | [y1, y2, y3, y4, '-', m1, m2, '-', d1, d2] =>
    match digitVal y1, digitVal y2, digitVal y3, digitVal y4,
          digitVal m1, digitVal m2, digitVal d1, digitVal d2 with
    | some a, some b, some c, some d, some e, some f, some g, some h =>
      let y := ((a * 10 + b) * 10 + c) * 10 + d
      let m := e * 10 + f
      let dy := g * 10 + h
      if 1 ≤ y && 1 ≤ m && m ≤ 12 && 1 ≤ dy && dy ≤ daysInMonth y m then
        some ⟨y, m, dy⟩
      else none
    | _, _, _, _, _, _, _, _ => none
  | _ => none

/-- Model of `_parse_date_safe`: falsy values parse to nothing; non-strings raise
`TypeError` inside the `try`, which is caught; invalid strings likewise. -/
def parseDateSafe (value : PyVal) : Option Date :=
  if !pyTruthy value then none
  else
    match value with
    | .vStr s => dateFromIso s
    | _ => none

/-! ### Agent state and call records -/

/-- One conversation turn (`{"role": ..., "content": ...}`). -/
structure Msg where
  role : String
  content : String
deriving Repr, DecidableEq

/-- Model of `AgentState`: the LangGraph state shared between nodes. -/
structure AgentState where
  messages : List Msg
  intent : String
  token : String
  is_admin : Bool
deriving Repr, DecidableEq

/-- Append an assistant message (`state["messages"].append({...})`). -/
def appendA (s : AgentState) (content : String) : AgentState :=
  { s with messages := s.messages ++ [⟨"assistant", content⟩] }

/-- One call to the Action Executor (MCP), with the arguments passed. -/
inductive ExecCall where
  | getLeaveBalance (token : String)
  | listMyLeaveRequests (token : String)
  | applyLeave (token : String) (leave_type : PyVal) (days : Int)
      (start_date : String) (reason : PyVal)
  | whoAmI (token : String)
  | adminListEmployees (token : String)
  | adminCreateEmployee (token : String) (employee_id username password name email : PyVal)
      (department : String)
deriving Repr

/-- Result of one handler invocation: the state afterwards, the exception
(if the handler raised; every append in the source is terminal, so a raise
leaves the message list untouched), and the calls made to the slot
extractor and to the Action Executor. -/
structure HResult where
  state : AgentState
  err : Option PyErr := none
  extractorCalls : Nat := 0
  execCalls : List ExecCall := []
deriving Repr

/-- Oracle data for the external collaborators: what the slot parser
output decoded to (`none` = `json.loads` raised), the Action Executor
envelope, the RAG answer and document metadata, and the semantic
classifier label. -/
structure Env where
  leaveParse : Option PyVal
  empParse : Option PyVal
  execResp : PyVal
  ragAnswer : String
  ragDocs : List PyVal
  classifierLabel : String

def defaultEnv : Env :=
  { leaveParse := none, empParse := none, execResp := .vDict []
    ragAnswer := "", ragDocs := [], classifierLabel := "" }

/-- Model of `_get_last_user_message`. -/
def lastUserMessage (s : AgentState) : String :=
  ((s.messages.reverse.find? (fun m => m.role == "user")).map Msg.content).getD ""

/-! ### Slot extraction (`_extract_leave_struct`, `_extract_employee_struct`) -/

/-- The leave draft dict returned by `_extract_leave_struct`
(each field is the decoded JSON value, `vNone` when null or absent). -/
structure LeaveStruct where
  leave_type : PyVal
  start_date : PyVal
  end_date : PyVal
  reason : PyVal
deriving Repr

/-- Model of `_extract_leave_struct` after the parser call, as a function of the
decoded parser output (`none` = the `json.loads` in the `try` raised, which
is caught and yields the all-`None` draft).  The normalization
`data.get(...)` happens outside the `try`: a decoded non-dict raises
`AttributeError`. -/
def extractLeaveStruct (decoded : Option PyVal) : Except PyErr LeaveStruct :=
  match decoded with
  | none => .ok ⟨.vNone, .vNone, .vNone, .vNone⟩
  | some data => do
    let lt ← pyGet data "leave_type"
    let sd ← pyGet data "start_date"
    let ed ← pyGet data "end_date"
    let rs ← pyGet data "reason"
    .ok ⟨lt, sd, ed, rs⟩

/-- The employee onboarding draft dict returned by `_extract_employee_struct`. -/
structure EmployeeStruct where
  employee_id : PyVal
  username : PyVal
  password : PyVal
  name : PyVal
  email : PyVal
  department : PyVal
deriving Repr

/-- Model of `_extract_employee_struct` after the parser call; same error behaviour
as `extractLeaveStruct`. -/
def extractEmployeeStruct (decoded : Option PyVal) : Except PyErr EmployeeStruct :=
  match decoded with
  | none => .ok ⟨.vNone, .vNone, .vNone, .vNone, .vNone, .vNone⟩
  | some data => do
    let eid ← pyGet data "employee_id"
    let un ← pyGet data "username"
    let pw ← pyGet data "password"
    let nm ← pyGet data "name"
    let em ← pyGet data "email"
    let dp ← pyGet data "department"
    .ok ⟨eid, un, pw, nm, em, dp⟩

/-! ### Intent router (`_keyword_intent_override`, `classify_intent`) -/

/-- One deterministic keyword rule: a predicate on the lower-cased,
stripped message and the intent it routes to. -/
structure KwRule where
  test : String → Bool
  label : String

/-- The keyword rules of `_keyword_intent_override`, in declared order. -/
def keywordRules : List KwRule :=
  [ ⟨fun t => strContains t "timesheet" || (strContains t "worked" && strContains t "hours"),
      "timesheet_entry"⟩,
    ⟨fun t => strContains t "cab" || strContains t "pickup" || strContains t "transport",
      "transport_booking"⟩,
    ⟨fun t => strContains t "training" &&
        (strContains t "pending" || strContains t "overdue" || strContains t "status"),
      "training_status"⟩,
    ⟨fun t => strContains t "leave balance", "leave_balance"⟩,
    ⟨fun t => (strContains t "leave" && strContains t "recent") || strContains t "leave requests",
      "leave_status"⟩,
    ⟨fun t => strContains t "apply" && strContains t "leave", "leave_apply"⟩,
    ⟨fun t => strContains t "policy", "policy_query"⟩,
    ⟨fun t => strContains t "profile", "profile_info"⟩,
    ⟨fun t => strContains t "create" && strContains t "employee", "admin_create_employee"⟩,
    ⟨fun t => strContains t "employee directory" || strContains t "list employees",
      "admin_list_employees"⟩ ]

/-- Model of `_keyword_intent_override`, written as the source if-chain over
`text = message.lower().strip()`. -/
def keywordIntentOverride (message : String) : Option String :=
  let text := pyStripStr (pyLowerStr message)
  if text = "" then none
  else if strContains text "timesheet" || (strContains text "worked" && strContains text "hours") then
    some "timesheet_entry"
  else if strContains text "cab" || strContains text "pickup" || strContains text "transport" then
    some "transport_booking"
  else if strContains text "training" &&
      (strContains text "pending" || strContains text "overdue" || strContains text "status") then
    some "training_status"
  else if strContains text "leave balance" then some "leave_balance"
  else if (strContains text "leave" && strContains text "recent") || strContains text "leave requests" then
    some "leave_status"
  else if strContains text "apply" && strContains text "leave" then some "leave_apply"
  else if strContains text "policy" then some "policy_query"
  else if strContains text "profile" then some "profile_info"
  else if strContains text "create" && strContains text "employee" then some "admin_create_employee"
  else if strContains text "employee directory" || strContains text "list employees" then
    some "admin_list_employees"
  else none

/-- The closed label set the classifier output is validated against. -/
def intentLabels : List String :=
  [ "policy_query", "leave_balance", "leave_status", "leave_apply", "profile_info",
    "admin_list_employees", "admin_create_employee", "timesheet_entry",
    "transport_booking", "training_status", "other" ]

/-- Model of `classify_intent`: keyword override first (no LLM call), else the
semantic classifier label, validated against the closed set.  The second
component counts classifier invocations. -/
def classify_intent (s : AgentState) (env : Env) : AgentState × Nat :=
  let last := lastUserMessage s
  match keywordIntentOverride last with
  | some i => ({ s with intent := i }, 0)
  | none =>
    let intent0 := pyLowerStr (pyStripStr env.classifierLabel)
    let intent := if intentLabels.contains intent0 then intent0 else "other"
    ({ s with intent := intent }, 1)

/-! ### Handlers -/

/-- One source line of the **Sources** list of `handle_policy_query`:
`src = (d.metadata or {}).get("source", "unknown")` can raise when the
metadata is truthy but not a dict. -/
def policySourceLine (i : Nat) (meta : PyVal) : Except PyErr String := do
  let src ← match pyOr meta (.vDict []) with
    | .vDict kvs => Except.ok (dictGetD kvs "source" (.vStr "unknown"))
    | _ => Except.error .attributeError
  return "[" ++ toString (i + 1) ++ "] " ++ pyStr src

/-- Model of `handle_policy_query`: RAG answer plus a source list. -/
def handle_policy_query (s : AgentState) (env : Env) : HResult :=
  match env.ragDocs.enum.mapM (fun p => policySourceLine p.1 p.2) with
  | .error e => { state := s, err := some e }
  | .ok parts =>
    let sources_text :=
      if env.ragDocs.isEmpty then ""
      else "\n\n**Sources:**\n" ++ String.intercalate "\n" parts
    { state := appendA s (env.ragAnswer ++ sources_text) }

/-- Model of `handle_leave_balance`: one `get_my_leave_balance` call, then branch
on the `success` flag of the envelope; the success path reads
`res["data"]["balances"]` and iterates `.items()`. -/
def handle_leave_balance (s : AgentState) (env : Env) : HResult :=
  let calls := [ExecCall.getLeaveBalance s.token]
  match env.execResp with
  | .vDict kvs =>
    if !pyTruthy (dictGet kvs "success") then
      let err := dictGetD kvs "error_message" (.vStr "unknown error")
      { state := appendA s ("Failed to fetch your leave balance: " ++ pyStr err ++ "."),
        execCalls := calls }
    else
      match dictIndex kvs "data" with
      | .error e => { state := s, err := some e, execCalls := calls }
      | .ok dataV =>
        match pyIndexStr dataV "balances" with
        | .error e => { state := s, err := some e, execCalls := calls }
        | .ok balances =>
          match pyItems balances with
          | .error e => { state := s, err := some e, execCalls := calls }
          | .ok bal =>
            let parts := bal.map (fun kv => kv.1 ++ ": " ++ pyStr kv.2)
            { state := appendA s
                ("Your current leave balance is:\n\n- " ++ String.intercalate "\n- " parts),
              execCalls := calls }
  | _ => { state := s, err := some .attributeError, execCalls := calls }

/-- One display line of `handle_leave_status` (raises on a non-dict record). -/
def leaveStatusLine (r : PyVal) : Except PyErr String := do
  let lt ← pyGet r "leave_type"
  let start ← pyGet r "start_date"
  let days ← pyGet r "days"
  let status ← pyGet r "status"
  return "- " ++ pyStr lt ++ " for " ++ pyStr days ++ " day(s) starting " ++ pyStr start ++
    " – **" ++ pyStr status ++ "**"

/-- Model of `handle_leave_status`: one `list_my_leave_requests` call; shows at most
the first 5 requests (`requests[:5]`), with no overflow suffix. -/
def handle_leave_status (s : AgentState) (env : Env) : HResult :=
  let calls := [ExecCall.listMyLeaveRequests s.token]
  match env.execResp with
  | .vDict kvs =>
    if !pyTruthy (dictGet kvs "success") then
      let err := dictGetD kvs "error_message" (.vStr "unknown error")
      { state := appendA s ("Failed to fetch your leave requests: " ++ pyStr err ++ "."),
        execCalls := calls }
    else
      match dictIndex kvs "data" with
      | .error e => { state := s, err := some e, execCalls := calls }
      | .ok dataV =>
        match (match dataV with
               | .vDict dk => Except.ok (dictGetD dk "requests" (.vList []))
               | _ => Except.error PyErr.attributeError) with
        | .error e => { state := s, err := some e, execCalls := calls }
        | .ok requests =>
          if !pyTruthy requests then
            { state := appendA s "You don\x27t have any leave applications on record.",
              execCalls := calls }
          else
            match pySlice5 requests with
            | .error e => { state := s, err := some e, execCalls := calls }
            | .ok reqs =>
              match reqs.mapM leaveStatusLine with
              | .error e => { state := s, err := some e, execCalls := calls }
              | .ok lines =>
                { state := appendA s
                    ("Here are your recent leave applications:\n\n" ++
                      String.intercalate "\n" lines),
                  execCalls := calls }
  | _ => { state := s, err := some .attributeError, execCalls := calls }

/-- Model of `leave_type in {"CL", "PL", "ML", "OTHER"}` (false for non-strings). -/
def validLeaveType : PyVal → Bool
  | .vStr s => s == "CL" || s == "PL" || s == "ML" || s == "OTHER"
  | _ => false

/-- The missing/invalid field list of `handle_leave_apply`, in source order. -/
def leaveMissing (ltValid : Bool) (sd ed : Option Date) (reason : PyVal) : List String :=
  (if ltValid then [] else ["leave type (CL, PL, ML, OTHER)"]) ++
  (if sd.isNone then ["start date (YYYY-MM-DD)"] else []) ++
  (if ed.isNone then ["end date (YYYY-MM-DD)"] else []) ++
  (if pyTruthy reason then [] else ["reason for your leave"])

/-- The message asking for the missing leave fields. -/
def leaveMissingMsg (missing : List String) : String :=
  "To submit your leave application, I still need the following:\n- " ++
  String.intercalate "; " missing ++
  "\n\nPlease provide the missing details in your next message. " ++
  "You can give them together (for example: " ++
  "\x27Casual leave from 2025-12-10 to 2025-12-12 for a family function\x27)."

/-- The correction message for a non-positive day count. -/
def leaveBadDatesMsg : String :=
  "The end date seems to be before or equal to the start date. " ++
  "Please check the dates and try again."

/-- Model of `handle_leave_apply`: extract the draft, itemize missing fields, check
the inclusive day count, then one `apply_leave_for_me` call branching on
the envelope. -/
def handle_leave_apply (s : AgentState) (env : Env) : HResult :=
  match extractLeaveStruct env.leaveParse with
  | .error e => { state := s, err := some e, extractorCalls := 1 }
  | .ok st =>
    let leave_type := st.leave_type
    let reason := st.reason
    let start_date := parseDateSafe st.start_date
    let end_date := parseDateSafe st.end_date
    let missing := leaveMissing (validLeaveType leave_type) start_date end_date reason
    if missing ≠ [] then
      { state := appendA s (leaveMissingMsg missing), extractorCalls := 1 }
    else
      match start_date, end_date with
      | some sd, some ed =>
        let days : Int := (toOrdinal ed - toOrdinal sd) + 1
        if days ≤ 0 then
          { state := appendA s leaveBadDatesMsg, extractorCalls := 1 }
        else
          let call := ExecCall.applyLeave s.token leave_type days sd.isoformat
            (pyOr reason (.vStr ""))
          match env.execResp with
          | .vDict kvs =>
            if !pyTruthy (dictGet kvs "success") then
              { state := appendA s
                  ("I tried to submit your leave request but it failed.\n\nError: " ++
                    pyStr (dictGetD kvs "error_message" (.vStr "unknown error"))),
                extractorCalls := 1, execCalls := [call] }
            else
              -- data = res.get("data", {}); req = data.get("request") or {}
              match dictGetD kvs "data" (.vDict []) with
              | .vDict dk =>
                match pyOr (dictGet dk "request") (.vDict []) with
                | .vDict rk =>
                  let status := dictGetD rk "status" (.vStr "UNKNOWN")
                  let start_disp := dictGetD rk "start_date" (.vStr sd.isoformat)
                  { state := appendA s
                      ("Your leave application has been submitted successfully.\n\n" ++
                        "- Leave type: " ++ pyStr leave_type ++ "\n" ++
                        "- Start date: " ++ pyStr start_disp ++ "\n" ++
                        "- End date: " ++ ed.isoformat ++ "\n" ++
                        "- Number of days: " ++ toString days ++ "\n" ++
                        "- Reason: " ++ pyStr reason ++ "\n" ++
                        "- Status: **" ++ pyStr status ++ "**\n"),
                    extractorCalls := 1, execCalls := [call] }
                | _ =>
                  -- a truthy non-dict "request" value has no `.get`
                  { state := s, err := some .attributeError,
                    extractorCalls := 1, execCalls := [call] }
              | _ =>
                -- a truthy non-dict "data" value has no `.get`
                { state := s, err := some .attributeError,
                  extractorCalls := 1, execCalls := [call] }
          | _ => { state := s, err := some .attributeError,
                   extractorCalls := 1, execCalls := [call] }
      | _, _ =>
        -- unreachable: an unparsed date is listed in `missing`
        { state := s, err := some .typeError, extractorCalls := 1 }

/-- Model of `handle_profile_info`: one `who_am_i` call; tolerant profile-shape
fallbacks (`data.employee` / `data.profile` / `data`, else the envelope). -/
def handle_profile_info (s : AgentState) (env : Env) : HResult :=
  let calls := [ExecCall.whoAmI s.token]
  match env.execResp with
  | .vDict kvs =>
    if !pyTruthy (dictGet kvs "success") then
      let err := dictGetD kvs "error_message" (.vStr "unknown error")
      { state := appendA s ("Couldn\x27t load your profile: " ++ pyStr err ++ "."),
        execCalls := calls }
    else
      let dataV := dictGet kvs "data"
      let profile0 :=
        match dataV with
        | .vDict dk => pyOr (dictGet dk "employee") (pyOr (dictGet dk "profile") dataV)
        | _ =>
          -- `elif isinstance(res, dict)`: the envelope is a dict here
          pyOr (dictGet kvs "employee") (pyOr (dictGet kvs "profile") (.vDict kvs))
      let profile := match profile0 with
        | .vDict pk => pk
        | _ => []
      let name := pyOr (dictGet profile "name")
        (pyOr (dictGet profile "full_name") (.vStr "Unknown user"))
      let email := pyOr (dictGet profile "email") (.vStr "Not provided")
      let dept := pyOr (dictGet profile "department")
        (pyOr (dictGet profile "dept") (.vStr "Not provided"))
      let emp_id := pyOr (dictGet profile "id")
        (pyOr (dictGet profile "employee_id")
          (pyOr (dictGet profile "emp_id") (.vStr "Not provided")))
      let role := if pyTruthy (dictGet profile "is_admin") then "HR Admin" else "Employee"
      { state := appendA s
          ("Here\x27s what I know about you:\n\n" ++
            "- Name: " ++ pyStr name ++ "\n" ++
            "- Employee ID: " ++ pyStr emp_id ++ "\n" ++
            "- Role: " ++ role ++ "\n" ++
            "- Email: " ++ pyStr email ++ "\n" ++
            "- Department: " ++ pyStr dept),
        execCalls := calls }
  | _ => { state := s, err := some .attributeError, execCalls := calls }

/-- One directory line of `handle_admin_list_employees` (non-dict entries
are skipped by the `isinstance` guard). -/
def adminEmpLine (emp : List (String × PyVal)) : String :=
  let emp_name := pyOr (dictGet emp "name") (pyOr (dictGet emp "username") (.vStr "Unknown"))
  let emp_id := pyOr (dictGet emp "id") (pyOr (dictGet emp "employee_id") (.vStr "N/A"))
  let email := pyOr (dictGet emp "email") (.vStr "No email")
  let dept := pyOr (dictGet emp "department") (.vStr "General")
  let admin_flag := if pyTruthy (dictGet emp "is_admin") then " (admin)" else ""
  "- " ++ pyStr emp_name ++ admin_flag ++ " — ID: " ++ pyStr emp_id ++ " — " ++
    pyStr dept ++ " — " ++ pyStr email

/-- The displayed lines for the first entries of the directory. -/
def adminEmpLines (emps : List PyVal) : List String :=
  emps.filterMap (fun e => match e with
    | .vDict dk => some (adminEmpLine dk)
    | _ => none)

/-- Length of the employees value after a successful slice (`len(employees)`). -/
def pyLenPostSlice : PyVal → Nat
  | .vList xs => xs.length
  | .vStr str => str.length
  | _ => 0  -- unreachable: the value sliced successfully

/-- Model of `handle_admin_list_employees`: admin gate, one `admin_list_employees`
call, tolerant nesting, truncation to 5 with an overflow suffix. -/
def handle_admin_list_employees (s : AgentState) (env : Env) : HResult :=
  if !s.is_admin then
    { state := appendA s "Only HR admins can access the employee directory." }
  else
    let calls := [ExecCall.adminListEmployees s.token]
    match env.execResp with
    | .vDict kvs =>
      if !pyTruthy (dictGet kvs "success") then
        let err := dictGetD kvs "error_message" (.vStr "unknown error")
        { state := appendA s ("Failed to fetch employees: " ++ pyStr err ++ "."),
          execCalls := calls }
      else
        let dataV := dictGet kvs "data"
        let employees :=
          match dataV with
          | .vDict dk => pyOr (dictGet dk "employees") (pyOr (dictGet dk "items") (.vList []))
          | .vList xs => .vList xs
          | _ => .vList []
        if !pyTruthy employees then
          { state := appendA s "The directory is empty or unavailable.", execCalls := calls }
        else
          match pySlice5 employees with
          | .error e => { state := s, err := some e, execCalls := calls }
          | .ok emps =>
            let lines := adminEmpLines emps
            let n := pyLenPostSlice employees
            let content := "Here are the latest employees:\n\n" ++
              String.intercalate "\n" lines ++
              (if 5 < n then "\n\n...and " ++ toString (n - 5) ++ " more." else "")
            { state := appendA s content, execCalls := calls }
    | _ => { state := s, err := some .attributeError,
             execCalls := [ExecCall.adminListEmployees s.token] }

/-- The message asking for the missing onboarding fields. -/
def createMissingMsg (missing : List String) : String :=
  "To create the employee I still need the following details: " ++
  String.intercalate ", " missing ++
  ". Please provide them (you can share everything in one message)."

/-- Model of `handle_admin_create_employee`: admin gate before extraction, field
normalization (`(... or "").strip() or None`), missing-field iteration,
then one `admin_create_employee` call. -/
def handle_admin_create_employee (s : AgentState) (env : Env) : HResult :=
  if !s.is_admin then
    { state := appendA s "You need HR admin permissions to create new employees." }
  else
    match extractEmployeeStruct env.empParse with
    | .error e => { state := s, err := some e, extractorCalls := 1 }
    | .ok st =>
      match pyStrip (pyOr st.employee_id (.vStr "")) with
      | .error e => { state := s, err := some e, extractorCalls := 1 }
      | .ok eid0 =>
        match pyStrip (pyOr st.username (.vStr "")) with
        | .error e => { state := s, err := some e, extractorCalls := 1 }
        | .ok un0 =>
          match pyStrip (pyOr st.name (.vStr "")) with
          | .error e => { state := s, err := some e, extractorCalls := 1 }
          | .ok nm0 =>
            match pyStrip (pyOr st.email (.vStr "")) with
            | .error e => { state := s, err := some e, extractorCalls := 1 }
            | .ok em0 =>
              match (if pyTruthy st.department
                     then pyStrip st.department
                     else Except.ok (.vStr "")) with
              | .error e => { state := s, err := some e, extractorCalls := 1 }
              | .ok dep0 =>
                let employee_id := pyOrNone eid0
                let username := pyOrNone un0
                let password := pyOr st.password .vNone
                let name := pyOrNone nm0
                let email := pyOrNone em0
                let department := match dep0 with
                  | .vStr str => str
                  | _ => ""  -- unreachable: `dep0` is always a string
                let missing :=
                  (if pyTruthy employee_id then [] else ["employee ID"]) ++
                  (if pyTruthy username then [] else ["username"]) ++
                  (if pyTruthy password then [] else ["temporary password"]) ++
                  (if pyTruthy name then [] else ["full name"]) ++
                  (if pyTruthy email then [] else ["email address"])
                if missing ≠ [] then
                  { state := appendA s (createMissingMsg missing), extractorCalls := 1 }
                else
                  let call := ExecCall.adminCreateEmployee s.token employee_id username
                    password name email department
                  match env.execResp with
                  | .vDict kvs =>
                    if !pyTruthy (dictGet kvs "success") then
                      { state := appendA s
                          ("I couldn\x27t create the employee: " ++
                            pyStr (dictGetD kvs "error_message" (.vStr "unknown error")) ++ "."),
                        extractorCalls := 1, execCalls := [call] }
                    else
                      let dataV := dictGet kvs "data"
                      let created :=
                        match dataV with
                        | .vDict dk => pyOr (dictGet dk "employee") dataV
                        | _ => .vDict []
                      match created with
                      | .vDict ck =>
                        let emp_id := pyOr (dictGet ck "id") employee_id
                        let dept := pyOr (dictGet ck "department")
                          (pyOr (.vStr department) (.vStr "General"))
                        { state := appendA s
                            ("Employee created successfully:\n\n" ++
                              "- ID: " ++ pyStr emp_id ++ "\n" ++
                              "- Username: " ++ pyStr username ++ "\n" ++
                              "- Name: " ++ pyStr name ++ "\n" ++
                              "- Email: " ++ pyStr email ++ "\n" ++
                              "- Department: " ++ pyStr dept ++ "\n" ++
                              "They can now log in with the provided temporary password."),
                          extractorCalls := 1, execCalls := [call] }
                      | _ =>
                        -- a truthy non-dict "employee" value has no `.get`
                        { state := s, err := some .attributeError,
                          extractorCalls := 1, execCalls := [call] }
                  | _ => { state := s, err := some .attributeError,
                           extractorCalls := 1, execCalls := [call] }

/-! ### Placeholder operations (timesheet, transport, training) -/

/-- Model of `OperationResult` from `hr_operation_result.py` (metadata as a dict). -/
structure OperationResult where
  success : Bool
  message : String
  metadata : List (String × PyVal)
deriving Repr

/-- Model of `WEEKDAY_NAMES` (identical in `timesheet_operations.py` and
`transport_operations.py`). -/
def WEEKDAY_NAMES : List String :=
  ["monday", "tuesday", "wednesday", "thursday", "friday", "saturday", "sunday"]

/-- Model of `str.title()` for the single lower-case words it is applied to. -/
def pyTitle (s : String) : String :=
  match s.toList with
  | c :: rest => String.mk (c.toUpper :: rest)
  | [] => ""

/-- Model of `_extract_weekdays` (identical in both operation modules): the weekday
names contained in the lower-cased text, in the fixed declared order. -/
def extractWeekdays (text : String) : List String :=
  let text_lower := pyLowerStr text
  (WEEKDAY_NAMES.filter (fun day => strContains text_lower day)).map pyTitle

/-- Greedy `\s*`. -/
def skipPyWs : List Char → List Char
  | [] => []
  | c :: rest => if isPyWs c then skipPyWs rest else c :: rest

/-- The hour-unit alternation `hr|hrs|hour|hours` (a match exists iff the
text starts with `hr` or `hour`). -/
def hourUnitAt (cs : List Char) : Bool :=
  "hr".toList.isPrefixOf cs || "hour".toList.isPrefixOf cs

/-- Model of `HOUR_PATTERN` tried at one start position (digits greedy, then `\s*`,
then the unit), returning `group(1)` as a number. -/
def hourMatchAt : List Char → Option Nat
  | [] => none
  | c1 :: rest =>
    if c1.isDigit then
      let d1 := c1.toNat - 48
      match rest with
      | c2 :: rest2 =>
        if c2.isDigit then
          if hourUnitAt (skipPyWs rest2) then some (10 * d1 + (c2.toNat - 48))
          else if hourUnitAt (skipPyWs rest) then some d1
          else none
        else if hourUnitAt (skipPyWs rest) then some d1 else none
      | [] => none
    else none

/-- Leftmost `HOUR_PATTERN` match (`re.search`). -/
def findHoursFrom : List Char → Option Nat
  | [] => none
  | c :: rest =>
    match hourMatchAt (c :: rest) with
    | some h => some h
    | none => findHoursFrom rest

/-- Model of `_extract_hours` (the pattern is case-insensitive, so the text is
lowered first; `int(...)` of one or two digits cannot fail). -/
def extractHours (text : String) : Option Nat :=
  findHoursFrom (text.toList.map Char.toLower)

/-- Word characters for `\b` (`[A-Za-z0-9_]`). -/
def isWordChar (c : Char) : Bool := c.isAlphanum || c == '_'

/-- Upper-case ASCII letter. -/
def isUpperAZ (c : Char) : Bool := 'A' ≤ c && c ≤ 'Z'

/-- Model of `\d+` run followed by a word boundary, appended to the already-matched
letters (and optional dash). -/
def projDigits (letters pre cs : List Char) : Option String :=
  let digits := cs.takeWhile Char.isDigit
  if digits.isEmpty then none
  else
    match cs.drop digits.length with
    | [] => some (String.mk (letters ++ pre ++ digits))
    | c :: _ =>
      if isWordChar c then none else some (String.mk (letters ++ pre ++ digits))

/-- Model of `PROJECT_CODE_PATTERN` (`\b[A-Z]{2,}-?\d+\b`) tried at one position:
a word boundary, a maximal run of at least two capitals, an optional dash,
digits, and a trailing boundary. -/
def projMatchAt (prevIsWord : Bool) (cs : List Char) : Option String :=
  if prevIsWord then none
  else
    let letters := cs.takeWhile isUpperAZ
    if letters.length < 2 then none
    else
      match cs.drop letters.length with
      | '-' :: rest2 => projDigits letters ['-'] rest2
      | rest1 => projDigits letters [] rest1

/-- Leftmost `PROJECT_CODE_PATTERN` match. -/
def findProjFrom : Bool → List Char → Option String
  | _, [] => none
  | prevW, c :: rest =>
    match projMatchAt prevW (c :: rest) with
    | some m => some m
    | none => findProjFrom (isWordChar c) rest

/-- Model of `_extract_project_code` (searched on `text.upper()`). -/
def extractProjectCode (text : String) : Option String :=
  findProjFrom false (text.toList.map Char.toUpper)

/-- The `a.m.`/`p.m.` alternation of `TIME_PATTERN` (case-insensitive),
returning the matched characters and the rest. -/
def ampmMatchAt (cs : List Char) : Option (List Char × List Char) :=
  match cs with
  | c :: rest =>
    if c.toLower == 'a' || c.toLower == 'p' then
      let (dot1, r1) := match rest with
        | '.' :: r => ([('.' : Char)], r)
        | _ => ([], rest)
      match r1 with
      | m :: r2 =>
        if m.toLower == 'm' then
          let (dot2, r3) := match r2 with
            | '.' :: r => ([('.' : Char)], r)
            | _ => ([], r2)
          some (c :: dot1 ++ m :: dot2, r3)
        else none
      | [] => none
    else none
  | [] => none

/-- Model of `TIME_PATTERN` tried at one position: one or two digits (greedy), an
optional `:MM`, `\s*`, an optional meridiem.  Everything after the hour is
optional, so a leading digit always yields a match.  Returns the hour
digits, the minute group, the meridiem group and the rest of the text. -/
def timeMatchAt (cs : List Char) : Option (String × Option String × Option String × List Char) :=
  match cs with
  | [] => none
  | c1 :: rest =>
    if c1.isDigit then
      let (hourDigits, restH) := match rest with
        | c2 :: r2 => if c2.isDigit then ([c1, c2], r2) else ([c1], rest)
        | [] => ([c1], ([] : List Char))
      let (minuteG, restM) := match restH with
        | ':' :: m1 :: m2 :: r =>
          if m1.isDigit && m2.isDigit then (some (String.mk [m1, m2]), r)
          else (none, restH)
        | _ => (none, restH)
      let restW := skipPyWs restM
      match ampmMatchAt restW with
      | some (am, restA) => some (String.mk hourDigits, minuteG, some (String.mk am), restA)
      | none => some (String.mk hourDigits, minuteG, none, restW)
    else none

/-- Model of `TIME_PATTERN.finditer`: successive non-overlapping leftmost matches
(fuel-indexed; every match consumes at least the hour digit, so
`text.length` fuel is enough). -/
def findTimesFrom : Nat → List Char → List (String × Option String × Option String)
  | 0, _ => []
  | _, [] => []
  | fuel + 1, c :: rest =>
    match timeMatchAt (c :: rest) with
    | some (h, mi, am, restA) => (h, mi, am) :: findTimesFrom fuel restA
    | none => findTimesFrom fuel rest

/-- Formatting of one time match in `_extract_times`. -/
def formatTime (h : String) (mi am : Option String) : String :=
  let minute := mi.getD "00"
  let ampm := pyUpperStr (String.mk ((am.getD "").toList.filter (fun c => c != '.')))
  let f := h ++ ":" ++ minute
  pyStripStr (if ampm != "" then f ++ " " ++ ampm else f)

/-- Model of `_extract_times`. -/
def extractTimes (text : String) : List String :=
  (findTimesFrom text.length text.toList).map (fun t => formatTime t.1 t.2.1 t.2.2)

/-- Python `x or default` for the extracted-hours value (`0` is falsy). -/
def hoursOrDefault (h : Option Nat) : Nat :=
  match h with
  | some n => if n == 0 then 8 else n
  | none => 8

/-- Python `x or default` for an optional extracted string. -/
def strOrDefault (x : Option String) (d : String) : String :=
  match x with
  | some v => if v == "" then d else v
  | none => d

/-- Model of `acknowledge_timesheet_request`. -/
def acknowledge_timesheet_request (user_message : String) : OperationResult :=
  let hours := hoursOrDefault (extractHours user_message)
  let weekdays :=
    let w := extractWeekdays user_message
    if w.isEmpty then ["Monday", "Tuesday", "Wednesday", "Thursday", "Friday"] else w
  let project_code := strOrDefault (extractProjectCode user_message) "PROJECT-CODE"
  { success := true
    message := "✅ Logged " ++ toString hours ++ " hours per day for " ++
      String.intercalate ", " weekdays ++ " against project " ++ project_code ++
      ". I\x27ll sync these with the real timesheet tool once it\x27s connected."
    metadata := [("hours_per_day", .vInt hours), ("weekdays", .vList (weekdays.map .vStr)),
                 ("project_code", .vStr project_code)] }

/-- Model of `acknowledge_transport_request`. -/
def acknowledge_transport_request (user_message : String) : OperationResult :=
  let times := extractTimes user_message
  let weekdays := extractWeekdays user_message
  let pickup := match times with
    | t :: _ => t
    | [] => "the scheduled time"
  let drop := times[1]?
  let day_hint := match weekdays with
    | d :: _ => d
    | [] => "the requested day"
  let message := "🚗 Cab booked for " ++ day_hint ++ " around " ++ pickup ++ "." ++
    (match drop with
     | some dr => " Return ride is blocked near " ++ dr ++ "."
     | none => "") ++
    " I\x27ll push this to the transport desk once the integration is ready."
  { success := true
    message := message
    metadata := [("pickup_time", .vStr pickup),
                 ("return_time", match drop with
                                 | some dr => .vStr dr
                                 | none => .vNone),
                 ("day_hint", .vStr day_hint)] }

/-- Model of `acknowledge_training_status` (fixed mock data). -/
def acknowledge_training_status (_user_message : String) : OperationResult :=
  let pending := ["Security Awareness 2025", "Expense Compliance Basics"]
  let overdue := ["Code of Conduct Refresher"]
  let lines := ["📚 Training summary:",
    "- Pending: " ++ String.intercalate ", " pending] ++
    (if !overdue.isEmpty then ["- Overdue: " ++ String.intercalate ", " overdue]
     else ["- Overdue: None 🎉"]) ++
    ["I\x27ll sync these with the LMS once the integration is wired."]
  { success := true
    message := String.intercalate "\n" lines
    metadata := [("pending_trainings", .vList (pending.map .vStr)),
                 ("overdue_trainings", .vList (overdue.map .vStr))] }

/-- Model of `handle_timesheet_entry`. -/
def handle_timesheet_entry (s : AgentState) (_env : Env) : HResult :=
  { state := appendA s (acknowledge_timesheet_request (lastUserMessage s)).message }

/-- Model of `handle_transport_booking`. -/
def handle_transport_booking (s : AgentState) (_env : Env) : HResult :=
  { state := appendA s (acknowledge_transport_request (lastUserMessage s)).message }

/-- Model of `handle_training_status`. -/
def handle_training_status (s : AgentState) (_env : Env) : HResult :=
  { state := appendA s (acknowledge_training_status (lastUserMessage s)).message }

/-- Model of `handle_other`: the fixed capability list. -/
def handle_other (s : AgentState) (_env : Env) : HResult :=
  { state := appendA s
      ("Here’s what I can help with right now:\n" ++
        "- Questions about HR policies (leave, holidays, etc.)\n" ++
        "- Checking your leave balance or recent leave requests\n" ++
        "- Applying for leave conversationally\n" ++
        "- Logging your timesheet details (placeholder flow)\n" ++
        "- Booking or updating a cab pickup/drop (placeholder flow)\n" ++
        "- Checking pending or overdue trainings (placeholder flow)\n" ++
        "- Showing your profile details\n" ++
        "- HR admin tasks like viewing or onboarding employees\n\n" ++
        "Let me know which of these you’d like to do.") }

/-- The dispatch table: every intent of `route_after_classify` with its
handler node. -/
def dispatchTable : List (String × (AgentState → Env → HResult)) :=
  [ ("policy_query", handle_policy_query),
    ("leave_balance", handle_leave_balance),
    ("leave_status", handle_leave_status),
    ("leave_apply", handle_leave_apply),
    ("profile_info", handle_profile_info),
    ("admin_list_employees", handle_admin_list_employees),
    ("admin_create_employee", handle_admin_create_employee),
    ("timesheet_entry", handle_timesheet_entry),
    ("transport_booking", handle_transport_booking),
    ("training_status", handle_training_status),
    ("other", handle_other) ]

/-! ### Frame properties of one handler invocation -/

/-- A handler invocation preserves `token` and `is_admin`, and either
completes having appended exactly one assistant message, or raises having
appended none. -/
def FrameOK (s : AgentState) (r : HResult) : Prop :=
  r.state.token = s.token ∧ r.state.is_admin = s.is_admin ∧
  ((r.err = none ∧ ∃ c, r.state.messages = s.messages ++ [⟨"assistant", c⟩]) ∨
   (r.err ≠ none ∧ r.state.messages = s.messages))

theorem frameOK_append (s : AgentState) (c : String) (x : Nat) (cs : List ExecCall) :
    FrameOK s { state := appendA s c, extractorCalls := x, execCalls := cs } := by
  refine ⟨rfl, rfl, .inl ⟨rfl, c, rfl⟩⟩

theorem frameOK_raise (s : AgentState) (e : PyErr) (x : Nat) (cs : List ExecCall) :
    FrameOK s { state := s, err := some e, extractorCalls := x, execCalls := cs } := by
  exact ⟨rfl, rfl, .inr ⟨by simp, rfl⟩⟩

theorem frame_policy_query (s : AgentState) (env : Env) :
    FrameOK s (handle_policy_query s env) := by
  unfold handle_policy_query
  split
  · exact frameOK_raise ..
  · exact frameOK_append ..

theorem frame_leave_balance (s : AgentState) (env : Env) :
    FrameOK s (handle_leave_balance s env) := by
  unfold handle_leave_balance
  split
  · split
    · exact frameOK_append ..
    · split
      · exact frameOK_raise ..
      · split
        · exact frameOK_raise ..
        · split
          · exact frameOK_raise ..
          · exact frameOK_append ..
  · exact frameOK_raise ..

theorem frame_leave_status (s : AgentState) (env : Env) :
    FrameOK s (handle_leave_status s env) := by
  unfold handle_leave_status
  repeat' first
    | exact frameOK_append ..
    | exact frameOK_raise ..
    | split
    | dsimp only

theorem frame_leave_apply (s : AgentState) (env : Env) :
    FrameOK s (handle_leave_apply s env) := by
  unfold handle_leave_apply
  repeat' first
    | exact frameOK_append ..
    | exact frameOK_raise ..
    | split
    | dsimp only

set_option maxHeartbeats 1600000 in
theorem frame_profile_info (s : AgentState) (env : Env) :
    FrameOK s (handle_profile_info s env) := by
  unfold handle_profile_info
  repeat' first
    | exact frameOK_append ..
    | exact frameOK_raise ..
    | split
    | dsimp only

set_option maxHeartbeats 1600000 in
theorem frame_admin_list_employees (s : AgentState) (env : Env) :
    FrameOK s (handle_admin_list_employees s env) := by
  unfold handle_admin_list_employees
  repeat' first
    | exact frameOK_append ..
    | exact frameOK_raise ..
    | split
    | dsimp only

set_option maxHeartbeats 1600000 in
theorem frame_admin_create_employee (s : AgentState) (env : Env) :
    FrameOK s (handle_admin_create_employee s env) := by
  unfold handle_admin_create_employee
  repeat' first
    | exact frameOK_append ..
    | exact frameOK_raise ..
    | split
    | dsimp only

theorem frame_timesheet_entry (s : AgentState) (env : Env) :
    FrameOK s (handle_timesheet_entry s env) :=
  frameOK_append ..

theorem frame_transport_booking (s : AgentState) (env : Env) :
    FrameOK s (handle_transport_booking s env) :=
  frameOK_append ..

theorem frame_training_status (s : AgentState) (env : Env) :
    FrameOK s (handle_training_status s env) :=
  frameOK_append ..

theorem frame_other (s : AgentState) (env : Env) :
    FrameOK s (handle_other s env) :=
  frameOK_append ..

/-! ### Claim theorems -/

/-- C1: in every state with `is_admin = false`, the create-employee handler
appends exactly the fixed denial message and calls neither the slot
extractor nor the Action Executor — the authorization gate precedes
extraction. -/
theorem C1_create_employee_admin_gate (s : AgentState) (env : Env)
    (h : s.is_admin = false) :
    handle_admin_create_employee s env =
      { state := appendA s "You need HR admin permissions to create new employees.",
        err := none, extractorCalls := 0, execCalls := [] } := by
  unfold handle_admin_create_employee
  rw [h]
  rfl

theorem C1_create_employee_admin_gate_witness :
    (AgentState.mk [⟨"user", "create employee E1"⟩] "admin_create_employee" "tok" false).is_admin
      = false ∧
    handle_admin_create_employee
        (AgentState.mk [⟨"user", "create employee E1"⟩] "admin_create_employee" "tok" false)
        defaultEnv =
      { state := appendA (AgentState.mk [⟨"user", "create employee E1"⟩]
          "admin_create_employee" "tok" false)
          "You need HR admin permissions to create new employees.",
        err := none, extractorCalls := 0, execCalls := [] } :=
  ⟨rfl, C1_create_employee_admin_gate _ defaultEnv rfl⟩

/-- C2: extraction is total only on `json.loads` failure — when the parser
output raises during decoding, both extractors return the all-absent draft;
but when it decodes to a non-object (for example the valid JSON text
`"[]"`), the normalization `data.get(...)` sits outside the `try` and
raises `AttributeError` instead of returning an all-absent draft. -/
theorem C2_extraction_totality_evaluation :
    extractLeaveStruct none = .ok ⟨.vNone, .vNone, .vNone, .vNone⟩ ∧
    extractEmployeeStruct none = .ok ⟨.vNone, .vNone, .vNone, .vNone, .vNone, .vNone⟩ ∧
    extractLeaveStruct (some (.vList [])) = .error .attributeError ∧
    extractEmployeeStruct (some (.vList [])) = .error .attributeError :=
  ⟨rfl, rfl, rfl, rfl⟩

/-- C9 (amended): every handler in the dispatch table either completes,
appending exactly one assistant message, or raises, appending none; in both
cases the pre-existing messages and the `token` and `is_admin` fields are
unchanged. -/
theorem C9_handler_frame :
    ∀ entry ∈ dispatchTable, ∀ (s : AgentState) (env : Env),
      FrameOK s (entry.2 s env) := by
  intro entry he s env
  simp only [dispatchTable, List.mem_cons, List.not_mem_nil, or_false] at he
  rcases he with h | h | h | h | h | h | h | h | h | h | h <;> subst h
  · exact frame_policy_query s env
  · exact frame_leave_balance s env
  · exact frame_leave_status s env
  · exact frame_leave_apply s env
  · exact frame_profile_info s env
  · exact frame_admin_list_employees s env
  · exact frame_admin_create_employee s env
  · exact frame_timesheet_entry s env
  · exact frame_transport_booking s env
  · exact frame_training_status s env
  · exact frame_other s env

theorem C9_handler_frame_witness :
    FrameOK (AgentState.mk [⟨"user", "hello"⟩] "other" "tok" false)
      (handle_policy_query (AgentState.mk [⟨"user", "hello"⟩] "other" "tok" false) defaultEnv) :=
  C9_handler_frame ("policy_query", handle_policy_query)
    (by unfold dispatchTable
        exact List.Mem.head _)
    (AgentState.mk [⟨"user", "hello"⟩] "other" "tok" false) defaultEnv

/-- C9 counterexample to the claim as stated: an invocation of
`handle_leave_apply` on a slot-parser output that decodes to `[]` raises
and appends zero assistant messages, not exactly one. -/
theorem C9_counterexample_no_message :
    (handle_leave_apply (AgentState.mk [⟨"user", "apply leave"⟩] "leave_apply" "tok" false)
        { defaultEnv with leaveParse := some (.vList []) }).state.messages =
      [⟨"user", "apply leave"⟩] ∧
    (handle_leave_apply (AgentState.mk [⟨"user", "apply leave"⟩] "leave_apply" "tok" false)
        { defaultEnv with leaveParse := some (.vList []) }).err =
      some .attributeError :=
  ⟨rfl, rfl⟩

/-- C6: whenever the extracted leave draft has a non-empty missing/invalid
field list, `handle_leave_apply` appends exactly one message itemizing
exactly that list (fields already known never appear in it) and makes no
executor call that turn. -/
theorem C6_missing_fields_itemized (s : AgentState) (env : Env) (st : LeaveStruct)
    (hst : extractLeaveStruct env.leaveParse = .ok st)
    (hm : leaveMissing (validLeaveType st.leave_type) (parseDateSafe st.start_date)
        (parseDateSafe st.end_date) st.reason ≠ []) :
    handle_leave_apply s env =
      { state := appendA s (leaveMissingMsg (leaveMissing (validLeaveType st.leave_type)
          (parseDateSafe st.start_date) (parseDateSafe st.end_date) st.reason)),
        err := none, extractorCalls := 1, execCalls := [] } := by
  unfold handle_leave_apply
  rw [hst]
  dsimp only
  rw [if_pos hm]

theorem C6_missing_fields_itemized_witness :
    leaveMissing (validLeaveType (.vStr "CL")) (parseDateSafe .vNone) (parseDateSafe .vNone)
        .vNone =
      ["start date (YYYY-MM-DD)", "end date (YYYY-MM-DD)", "reason for your leave"] ∧
    handle_leave_apply (AgentState.mk [⟨"user", "I want casual leave"⟩] "leave_apply" "tok" false)
        { defaultEnv with leaveParse := some (.vDict [("leave_type", .vStr "CL")]) } =
      { state := appendA (AgentState.mk [⟨"user", "I want casual leave"⟩] "leave_apply" "tok" false)
          (leaveMissingMsg ["start date (YYYY-MM-DD)", "end date (YYYY-MM-DD)",
            "reason for your leave"]),
        err := none, extractorCalls := 1, execCalls := [] } :=
  ⟨rfl,
    C6_missing_fields_itemized _ _ ⟨.vStr "CL", .vNone, .vNone, .vNone⟩ rfl (by decide)⟩

/-- C3 (amended): for a complete draft whose end date is strictly before
the start date (so the inclusive day count is not positive),
`handle_leave_apply` appends the correction message and makes zero
executor calls.  (With end equal to start the day count is 1 and the
executor is called — see the counterexample.) -/
theorem C3_end_before_start_blocks_executor (s : AgentState) (env : Env)
    (st : LeaveStruct) (sd ed : Date)
    (hst : extractLeaveStruct env.leaveParse = .ok st)
    (hlt : validLeaveType st.leave_type = true)
    (hsd : parseDateSafe st.start_date = some sd)
    (hed : parseDateSafe st.end_date = some ed)
    (hrs : pyTruthy st.reason = true)
    (hord : toOrdinal ed < toOrdinal sd) :
    handle_leave_apply s env =
      { state := appendA s leaveBadDatesMsg, err := none,
        extractorCalls := 1, execCalls := [] } := by
  unfold handle_leave_apply
  rw [hst]
  dsimp only
  rw [hsd, hed]
  simp only [leaveMissing, hlt, hrs, Option.isNone_some, if_true, if_false,
    List.append_nil, List.nil_append, ite_self]
  rw [if_neg (by simp), if_pos (by omega)]

theorem C3_end_before_start_blocks_executor_witness :
    toOrdinal ⟨2025, 12, 9⟩ < toOrdinal ⟨2025, 12, 10⟩ ∧
    handle_leave_apply (AgentState.mk [⟨"user", "apply leave"⟩] "leave_apply" "tok" false)
        { defaultEnv with leaveParse := some (.vDict
            [("leave_type", .vStr "CL"), ("start_date", .vStr "2025-12-10"),
             ("end_date", .vStr "2025-12-09"), ("reason", .vStr "family function")]) } =
      { state := appendA (AgentState.mk [⟨"user", "apply leave"⟩] "leave_apply" "tok" false)
          leaveBadDatesMsg,
        err := none, extractorCalls := 1, execCalls := [] } :=
  ⟨by decide,
    C3_end_before_start_blocks_executor _ _
      ⟨.vStr "CL", .vStr "2025-12-10", .vStr "2025-12-09", .vStr "family function"⟩
      ⟨2025, 12, 10⟩ ⟨2025, 12, 9⟩ rfl rfl rfl rfl rfl (by decide)⟩

/-- C3 counterexample to the claim as stated: with end date equal to the
start date (a complete draft), the handler computes a day count of 1 and
makes one `apply_leave_for_me` call instead of emitting a correction. -/
theorem C3_counterexample_equal_dates_call :
    extractLeaveStruct (some (.vDict
        [("leave_type", .vStr "CL"), ("start_date", .vStr "2025-12-10"),
         ("end_date", .vStr "2025-12-10"), ("reason", .vStr "family function")])) =
      .ok ⟨.vStr "CL", .vStr "2025-12-10", .vStr "2025-12-10", .vStr "family function"⟩ ∧
    (handle_leave_apply (AgentState.mk [⟨"user", "apply leave"⟩] "leave_apply" "tok" false)
        { defaultEnv with
          leaveParse := some (.vDict
            [("leave_type", .vStr "CL"), ("start_date", .vStr "2025-12-10"),
             ("end_date", .vStr "2025-12-10"), ("reason", .vStr "family function")]),
          execResp := .vDict [("success", .vBool true)] }).execCalls =
      [ExecCall.applyLeave "tok" (.vStr "CL") 1 "2025-12-10" (.vStr "family function")] :=
  ⟨rfl, rfl⟩

/-- C4: for a complete draft with parseable dates and a positive inclusive
day count, `handle_leave_apply` passes exactly
`(toOrdinal end − toOrdinal start) + 1` days to `apply_leave_for_me`,
whatever the executor then answers. -/
theorem C4_inclusive_day_count (s : AgentState) (env : Env)
    (st : LeaveStruct) (sd ed : Date)
    (hst : extractLeaveStruct env.leaveParse = .ok st)
    (hlt : validLeaveType st.leave_type = true)
    (hsd : parseDateSafe st.start_date = some sd)
    (hed : parseDateSafe st.end_date = some ed)
    (hrs : pyTruthy st.reason = true)
    (hord : toOrdinal sd ≤ toOrdinal ed) :
    (handle_leave_apply s env).execCalls =
      [ExecCall.applyLeave s.token st.leave_type (toOrdinal ed - toOrdinal sd + 1)
        sd.isoformat (pyOr st.reason (.vStr ""))] := by
  unfold handle_leave_apply
  rw [hst]
  dsimp only
  rw [hsd, hed]
  simp only [leaveMissing, hlt, hrs, Option.isNone_some, if_true, if_false,
    List.append_nil, List.nil_append, ite_self]
  rw [if_neg (by simp), if_neg (by omega)]
  repeat' first
    | rfl
    | split
    | dsimp only

theorem C4_inclusive_day_count_witness :
    toOrdinal ⟨2025, 12, 12⟩ - toOrdinal ⟨2025, 12, 10⟩ + 1 = 3 ∧
    (handle_leave_apply (AgentState.mk [⟨"user", "apply leave"⟩] "leave_apply" "tok" false)
        { defaultEnv with
          leaveParse := some (.vDict
            [("leave_type", .vStr "CL"), ("start_date", .vStr "2025-12-10"),
             ("end_date", .vStr "2025-12-12"), ("reason", .vStr "family function")]),
          execResp := .vDict [("success", .vBool true)] }).execCalls =
      [ExecCall.applyLeave "tok" (.vStr "CL") 3 "2025-12-10" (.vStr "family function")] :=
  ⟨by decide,
    C4_inclusive_day_count _ _
      ⟨.vStr "CL", .vStr "2025-12-10", .vStr "2025-12-12", .vStr "family function"⟩
      ⟨2025, 12, 10⟩ ⟨2025, 12, 12⟩ rfl rfl rfl rfl rfl (by decide)⟩

/-- The if-chain of `_keyword_intent_override` is first-match search over
the declared rule list. -/
theorem keywordIntentOverride_eq_findFirst (m : String) :
    keywordIntentOverride m =
      (keywordRules.find? (fun r => r.test (pyStripStr (pyLowerStr m)))).map KwRule.label := by
  unfold keywordIntentOverride keywordRules
  by_cases h : pyStripStr (pyLowerStr m) = ""
  · rw [h]
    rfl
  · rw [if_neg h]
    simp only [List.find?]
    repeat' split
    all_goals simp_all

/-- C5: when the lower-cased, stripped message satisfies some keyword rule,
`classify_intent` assigns the label of the first matching rule in declared
order and never invokes the semantic classifier (zero classifier calls). -/
theorem C5_keyword_rules_win (s : AgentState) (env : Env) (lbl : String)
    (h : ((keywordRules.find? (fun r => r.test (pyStripStr (pyLowerStr (lastUserMessage s))))).map
        KwRule.label) = some lbl) :
    classify_intent s env = ({ s with intent := lbl }, 0) := by
  unfold classify_intent
  dsimp only
  rw [keywordIntentOverride_eq_findFirst, h]

theorem C5_keyword_rules_win_witness :
    ((keywordRules.find? (fun r =>
        r.test (pyStripStr (pyLowerStr (lastUserMessage
          (AgentState.mk [⟨"user", "Show my leave balance"⟩] "" "tok" false)))))).map
      KwRule.label) = some "leave_balance" ∧
    classify_intent (AgentState.mk [⟨"user", "Show my leave balance"⟩] "" "tok" false)
        defaultEnv =
      ({ AgentState.mk [⟨"user", "Show my leave balance"⟩] "" "tok" false with
          intent := "leave_balance" }, 0) :=
  ⟨by decide, C5_keyword_rules_win _ defaultEnv "leave_balance" (by decide)⟩

/-- C7 (amended): on a successful list result, both read-only list
handlers display at most the first 5 entries; the admin directory appends
the "...and N more." suffix exactly when the true count exceeds 5, while
the leave-status display never appends an overflow suffix. -/
theorem C7_truncation_and_suffix :
    (∀ (s : AgentState) (env : Env) (kvs dk : List (String × PyVal)) (xs : List PyVal),
      s.is_admin = true →
      env.execResp = .vDict kvs →
      pyTruthy (dictGet kvs "success") = true →
      dictGet kvs "data" = .vDict dk →
      dictGet dk "employees" = .vList xs →
      xs ≠ [] →
      handle_admin_list_employees s env =
        { state := appendA s ("Here are the latest employees:\n\n" ++
            String.intercalate "\n" (adminEmpLines (xs.take 5)) ++
            (if 5 < xs.length then "\n\n...and " ++ toString (xs.length - 5) ++ " more."
             else "")),
          err := none, extractorCalls := 0,
          execCalls := [ExecCall.adminListEmployees s.token] }) ∧
    (∀ (s : AgentState) (env : Env) (kvs dk : List (String × PyVal)) (rs : List PyVal)
        (lines : List String),
      env.execResp = .vDict kvs →
      pyTruthy (dictGet kvs "success") = true →
      dictIndex kvs "data" = .ok (.vDict dk) →
      dictGetD dk "requests" (.vList []) = .vList rs →
      rs ≠ [] →
      (rs.take 5).mapM leaveStatusLine = .ok lines →
      handle_leave_status s env =
        { state := appendA s ("Here are your recent leave applications:\n\n" ++
            String.intercalate "\n" lines),
          err := none, extractorCalls := 0,
          execCalls := [ExecCall.listMyLeaveRequests s.token] }) := by
  constructor
  · intro s env kvs dk xs ha he hs hd hemp hx
    have hxe : xs.isEmpty = false := by
      cases xs
      · exact absurd rfl hx
      · rfl
    unfold handle_admin_list_employees
    rw [ha, he]
    dsimp only
    rw [hs]
    rw [hd]
    dsimp only
    rw [hemp]
    simp only [pyOr, pyTruthy, hxe, Bool.not_false, Bool.not_true, if_true, if_false,
      ite_true, ite_false, pySlice5, pyLenPostSlice]
    simp
  · intro s env kvs dk rs lines he hs hd hreq hr hlines
    have hre : rs.isEmpty = false := by
      cases rs
      · exact absurd rfl hr
      · rfl
    unfold handle_leave_status
    rw [he]
    dsimp only
    rw [hs]
    rw [hd]
    dsimp only
    rw [hreq]
    simp only [pyTruthy, hre, Bool.not_false, Bool.not_true, if_true, if_false,
      ite_true, ite_false, pySlice5]
    rw [hlines]
    simp

/-- A one-field employee record used in concrete directory examples. -/
def empN (n : String) : PyVal := .vDict [("name", .vStr n)]

theorem C7_truncation_and_suffix_witness :
    handle_admin_list_employees
        (AgentState.mk [⟨"user", "list employees"⟩] "admin_list_employees" "tok" true)
        { defaultEnv with execResp := .vDict [("success", .vBool true),
          ("data", .vDict [("employees", .vList
            [empN "A", empN "B", empN "C", empN "D", empN "E", empN "F", empN "G"])])] } =
      { state := appendA
          (AgentState.mk [⟨"user", "list employees"⟩] "admin_list_employees" "tok" true)
          ("Here are the latest employees:\n\n- A — ID: N/A — General — No email\n" ++
            "- B — ID: N/A — General — No email\n- C — ID: N/A — General — No email\n" ++
            "- D — ID: N/A — General — No email\n- E — ID: N/A — General — No email" ++
            "\n\n...and 2 more."),
        err := none, extractorCalls := 0, execCalls := [ExecCall.adminListEmployees "tok"] } :=
  (C7_truncation_and_suffix).1
    (AgentState.mk [⟨"user", "list employees"⟩] "admin_list_employees" "tok" true) _
    _ _ [empN "A", empN "B", empN "C", empN "D", empN "E", empN "F", empN "G"]
    rfl rfl rfl rfl rfl (by simp)

set_option maxRecDepth 4096 in
/-- C7 counterexample to the claim as stated: a leave-status result with 6
requests is truncated to 5 displayed lines but no "and N more" suffix is
appended (the word "more" does not occur in the reply at all). -/
theorem C7_counterexample_status_no_suffix :
    (handle_leave_status
        (AgentState.mk [⟨"user", "show my recent leave requests"⟩] "leave_status" "tok" false)
        { defaultEnv with execResp := .vDict [("success", .vBool true),
          ("data", .vDict [("requests", .vList (List.replicate 6 (.vDict
            [("leave_type", .vStr "CL"), ("start_date", .vStr "2025-01-01"),
             ("days", .vInt 2), ("status", .vStr "APPROVED")])))])] }).state.messages =
      [⟨"user", "show my recent leave requests"⟩,
       ⟨"assistant", "Here are your recent leave applications:\n\n" ++
          String.intercalate "\n" (List.replicate 5
            "- CL for 2 day(s) starting 2025-01-01 – **APPROVED**")⟩] ∧
    strContains ("Here are your recent leave applications:\n\n" ++
        String.intercalate "\n" (List.replicate 5
          "- CL for 2 day(s) starting 2025-01-01 – **APPROVED**")) "more" = false :=
  ⟨rfl, by decide⟩

/-- C8 (amended): the leave-balance, leave-status and profile handlers make
exactly one Action Executor call on every invocation; the admin directory
handler makes exactly one call when the state is admin and zero (fixed
denial) when it is not; and each branches its reply on the `success` flag of the envelope, producing the fixed failure format when the flag is falsy. -/
theorem C8_one_executor_call (s : AgentState) (env : Env) :
    (handle_leave_balance s env).execCalls = [ExecCall.getLeaveBalance s.token] ∧
    (handle_leave_status s env).execCalls = [ExecCall.listMyLeaveRequests s.token] ∧
    (handle_profile_info s env).execCalls = [ExecCall.whoAmI s.token] ∧
    (handle_admin_list_employees s env).execCalls =
      (if s.is_admin then [ExecCall.adminListEmployees s.token] else []) ∧
    (∀ kvs, env.execResp = .vDict kvs → pyTruthy (dictGet kvs "success") = false →
      (handle_leave_balance s env).state =
        appendA s ("Failed to fetch your leave balance: " ++
          pyStr (dictGetD kvs "error_message" (.vStr "unknown error")) ++ ".")) ∧
    (∀ kvs, s.is_admin = true → env.execResp = .vDict kvs →
      pyTruthy (dictGet kvs "success") = false →
      (handle_admin_list_employees s env).state =
        appendA s ("Failed to fetch employees: " ++
          pyStr (dictGetD kvs "error_message" (.vStr "unknown error")) ++ ".")) := by
  refine ⟨?_, ?_, ?_, ?_, ?_, ?_⟩
  · unfold handle_leave_balance
    repeat' first
      | rfl
      | split
      | dsimp only
  · unfold handle_leave_status
    repeat' first
      | rfl
      | split
      | dsimp only
  · unfold handle_profile_info
    repeat' first
      | rfl
      | split
      | dsimp only
  · by_cases ha : s.is_admin
    · simp only [ha, if_true, ite_true]
      unfold handle_admin_list_employees
      simp only [ha, Bool.not_true]
      repeat' first
        | rfl
        | split
        | dsimp only
      all_goals simp_all
    · simp only [ha, if_false, ite_false]
      unfold handle_admin_list_employees
      simp only [Bool.not_eq_true] at ha
      simp only [ha, Bool.not_false, if_true, ite_true]
      simp
  · intro kvs he hs
    unfold handle_leave_balance
    rw [he]
    dsimp only
    rw [hs]
    simp
  · intro kvs ha he hs
    unfold handle_admin_list_employees
    rw [ha, he]
    dsimp only
    rw [hs]
    simp

theorem C8_one_executor_call_witness :
    (handle_leave_balance (AgentState.mk [⟨"user", "leave balance"⟩] "leave_balance" "tok" false)
        { defaultEnv with execResp := PyVal.vDict [("success", .vBool false),
            ("error_message", .vStr "boom")] }).state =
      appendA (AgentState.mk [⟨"user", "leave balance"⟩] "leave_balance" "tok" false)
        "Failed to fetch your leave balance: boom." ∧
    (handle_leave_balance (AgentState.mk [⟨"user", "leave balance"⟩] "leave_balance" "tok" false)
        { defaultEnv with execResp := PyVal.vDict [("success", .vBool false),
            ("error_message", .vStr "boom")] }).execCalls =
      [ExecCall.getLeaveBalance "tok"] :=
  ⟨(C8_one_executor_call _ _).2.2.2.2.1
      [("success", .vBool false), ("error_message", .vStr "boom")] rfl (by decide),
   (C8_one_executor_call _ _).1⟩

/-- C8 counterexample to the claim as stated: in a non-admin state the
admin directory handler makes zero executor calls (it answers with the
fixed denial), not exactly one. -/
theorem C8_counterexample_nonadmin_zero_calls :
    (handle_admin_list_employees
        (AgentState.mk [⟨"user", "list employees"⟩] "admin_list_employees" "tok" false)
        defaultEnv).execCalls = [] ∧
    (handle_admin_list_employees
        (AgentState.mk [⟨"user", "list employees"⟩] "admin_list_employees" "tok" false)
        defaultEnv).state.messages =
      [⟨"user", "list employees"⟩,
       ⟨"assistant", "Only HR admins can access the employee directory."⟩] :=
  ⟨rfl, rfl⟩

/-- The head of a `filter` is the first element of the list satisfying the
predicate: everything before it in the original list fails the predicate. -/
theorem filter_head_is_first {α : Type} (p : α → Bool) :
    ∀ (l : List α) (x : α) (rest : List α), l.filter p = x :: rest →
      ∃ l1 l2, l = l1 ++ x :: l2 ∧ (∀ y ∈ l1, p y = false) ∧ p x = true := by
  intro l
  induction l with
  | nil => intro x rest h; simp at h
  | cons a t ih =>
    intro x rest h
    by_cases hpa : p a = true
    · rw [List.filter_cons_of_pos hpa] at h
      obtain ⟨rfl, -⟩ : a = x ∧ t.filter p = rest := by
        exact ⟨by injection h, by injection h⟩
      exact ⟨[], t, rfl, by intro y hy; simp at hy, hpa⟩
    · rw [List.filter_cons_of_neg hpa] at h
      obtain ⟨l1, l2, hsplit, hnone, hpx⟩ := ih x rest h
      refine ⟨a :: l1, l2, by rw [hsplit]; rfl, ?_, hpx⟩
      intro y hy
      rcases List.mem_cons.mp hy with rfl | hy2
      · simpa using hpa
      · exact hnone y hy2

/-- C10: weekday extraction returns the mentioned weekday names in the
fixed canonical Monday-to-Sunday order with no duplicates, as a pure
function of which names occur in the lower-cased message (independent of
mention order and multiplicity); consequently the transport handler day
hint is the canonically earliest mentioned weekday. -/
theorem C10_weekday_canonical_order (text : String) :
    (extractWeekdays text).Sublist (WEEKDAY_NAMES.map pyTitle) ∧
    (extractWeekdays text).Nodup ∧
    (∀ d, d ∈ extractWeekdays text ↔
      ∃ day, day ∈ WEEKDAY_NAMES ∧ strContains (pyLowerStr text) day = true ∧
        pyTitle day = d) ∧
    (extractWeekdays text ≠ [] →
      ∃ d l1 l2, WEEKDAY_NAMES = l1 ++ d :: l2 ∧ strContains (pyLowerStr text) d = true ∧
        (∀ e ∈ l1, strContains (pyLowerStr text) e = false) ∧
        dictGet (acknowledge_transport_request text).metadata "day_hint" =
          .vStr (pyTitle d)) := by
  refine ⟨?_, ?_, ?_, ?_⟩
  · exact List.Sublist.map pyTitle (List.filter_sublist _)
  · exact List.Nodup.sublist (List.Sublist.map pyTitle (List.filter_sublist _)) (by decide)
  · intro d
    simp only [extractWeekdays, List.mem_map, List.mem_filter]
    constructor
    · rintro ⟨day, ⟨hmem, hcon⟩, hti⟩
      exact ⟨day, hmem, hcon, hti⟩
    · rintro ⟨day, hmem, hcon, hti⟩
      exact ⟨day, ⟨hmem, hcon⟩, hti⟩
  · intro hne
    obtain ⟨w, ws, hw⟩ : ∃ w ws,
        WEEKDAY_NAMES.filter (fun day => strContains (pyLowerStr text) day) = w :: ws := by
      rcases hfe : WEEKDAY_NAMES.filter (fun day => strContains (pyLowerStr text) day) with
        _ | ⟨w, ws⟩
      · exact absurd (by simp [extractWeekdays, hfe]) hne
      · exact ⟨w, ws, rfl⟩
    obtain ⟨l1, l2, hsplit, hnone, hpw⟩ := filter_head_is_first _ _ _ _ hw
    refine ⟨w, l1, l2, hsplit, hpw, hnone, ?_⟩
    unfold acknowledge_transport_request
    simp only [extractWeekdays, hw, List.map_cons]
    rfl

theorem C10_weekday_canonical_order_witness :
    extractWeekdays "cab on friday and monday" ≠ [] ∧
    (∃ d l1 l2, WEEKDAY_NAMES = l1 ++ d :: l2 ∧
      strContains (pyLowerStr "cab on friday and monday") d = true ∧
      (∀ e ∈ l1, strContains (pyLowerStr "cab on friday and monday") e = false) ∧
      dictGet (acknowledge_transport_request "cab on friday and monday").metadata "day_hint" =
        .vStr (pyTitle d)) :=
  ⟨by decide, (C10_weekday_canonical_order "cab on friday and monday").2.2.2 (by decide)⟩
